import Mathlib

/-!
Verification development for the Bybit futures trading bot
(signal-to-position lifecycle orchestrator).

The JavaScript sources are embedded shallowly:
* numbers are modelled as exact rationals (`ℚ`); `Math.round` is modelled
  as `⌊x + 1/2⌋`, which is its behaviour on the reals;
* quantity tick sizes are restricted to exact powers of ten
  `tickSize = 10^(-tickPrec)`: the source computes
  `precision = |log10 tickSize|`, which for such tick sizes is exactly
  `tickPrec` (all instruments exercised by the specification have
  power-of-ten tick sizes);
* exchange and messaging calls are modelled by passing their observable
  responses as explicit inputs, and the side effects a routine performs
  are returned as an explicit action trace;
* thrown JavaScript errors become `Except` / `Option` results.
-/

namespace TradingBot

/-- JavaScript `Math.round` on exact rationals: round half towards +∞. -/
def jsRound (q : ℚ) : ℤ := ⌊q + 1/2⌋

/-- `helpers.js` `roundToDecimal(value, decimals)`:
`Math.round(value * 10^decimals) / 10^decimals`.
(The NaN/null guard of the source cannot fire on `ℚ`.) -/
def roundToDecimal (value : ℚ) (decimals : ℕ) : ℚ :=
  (jsRound (value * 10 ^ decimals) : ℚ) / 10 ^ decimals

/-- `helpers.js` `roundQuantity(quantity, tickSize)`: the source computes
`precision = Math.abs(Math.log10(tickSize))` and rounds to that many
decimals.  We carry the tick size as the exponent `tickPrec` with
`tickSize = 10^(-tickPrec)`, for which the source's `precision` is exactly
`tickPrec`.  (The `tickSize <= 0` guard cannot fire for a power of ten.) -/
def roundQuantity (quantity : ℚ) (tickPrec : ℕ) : ℚ :=
  roundToDecimal quantity tickPrec

/-- `helpers.js` `roundPrice(price, pricePrecision)` with the precision
supplied (the source substitutes 8 when it is `undefined`/`null`). -/
def roundPrice (price : ℚ) (pricePrecision : ℕ) : ℚ :=
  roundToDecimal price pricePrecision

/-- `helpers.js` `isValidNumber(value)`: a finite number strictly greater
than zero (finiteness and number-ness are automatic on `ℚ`). -/
def isValidNumber (v : ℚ) : Bool :=
  decide (0 < v)

/-- Trade direction.  Signals reaching the risk calculator and the ledger
have already been validated to be `LONG` or `SHORT`, so an enumeration is
faithful there; the validator itself works on the raw string. -/
inductive Direction where
  | LONG
  | SHORT
  deriving DecidableEq, Repr

/-- `helpers.js` `calculatePnL(entryPrice, exitPrice, quantity, direction)`. -/
def calculatePnL (entryPrice exitPrice quantity : ℚ) (direction : Direction) : ℚ :=
  if ¬ (isValidNumber entryPrice ∧ isValidNumber exitPrice ∧ isValidNumber quantity) then 0
  else
    match direction with
    | .LONG => (exitPrice - entryPrice) * quantity
    | .SHORT => (entryPrice - exitPrice) * quantity

/-- `helpers.js` `calculatePnLPercent(entryPrice, exitPrice, direction)`. -/
def calculatePnLPercent (entryPrice exitPrice : ℚ) (direction : Direction) : ℚ :=
  if ¬ (isValidNumber entryPrice ∧ isValidNumber exitPrice) then 0
  else
    match direction with
    | .LONG => (exitPrice - entryPrice) / entryPrice * 100
    | .SHORT => (entryPrice - exitPrice) / entryPrice * 100

/-- The `config.risk` block of `config/settings.js`. -/
structure RiskConfig where
  percentage : ℚ
  leverage : ℚ
  takeProfitPercent : ℚ
  stopLossPercent : ℚ
  deriving DecidableEq, Repr

/-- The default risk configuration of `config/settings.js`
(riskPercent 2.5, leverage 20, takeProfit 0.5 %, stopLoss 0.3 %). -/
def defaultRiskConfig : RiskConfig :=
  { percentage := 5/2, leverage := 20, takeProfitPercent := 1/2, stopLossPercent := 3/10 }

/-- Instrument constraints as produced by `bybit.service.js`
`getSymbolInfo` and consumed by `risk.service.js` (all fields present;
the source's `||`-defaults only fire on absent fields).  `tickPrec` is the
exponent of the power-of-ten tick size, `tickSize = 10^(-tickPrec)`. -/
structure SymbolInfo where
  tickPrec : ℕ
  minQty : ℚ
  maxQty : ℚ
  pricePrecision : ℕ
  deriving DecidableEq, Repr

/-- The result record of `risk.service.js` `calculatePositionParameters`. -/
structure PositionParams where
  entryPrice : ℚ
  quantity : ℚ
  positionSize : ℚ
  leverage : ℚ
  requiredMargin : ℚ
  stopLoss : ℚ
  takeProfit : ℚ
  riskAmount : ℚ
  direction : Direction
  deriving DecidableEq, Repr

/-- The distinct `throw new Error(...)` exits of
`calculatePositionParameters`. -/
inductive RiskError where
  | invalidBalance
  | invalidEntryPrice
  | degenerateStop
  | insufficientBalance
  deriving DecidableEq, Repr

/-- Step 1 of `calculatePositionParameters`: `riskAmount = balance * (percentage / 100)`. -/
def riskAmountOf (cfg : RiskConfig) (balance : ℚ) : ℚ :=
  balance * (cfg.percentage / 100)

/-- Step 2: the stop-loss price (minus the percentage for LONG, plus for SHORT). -/
def stopLossPriceOf (cfg : RiskConfig) (entryPrice : ℚ) (direction : Direction) : ℚ :=
  match direction with
  | .LONG => entryPrice * (1 - cfg.stopLossPercent / 100)
  | .SHORT => entryPrice * (1 + cfg.stopLossPercent / 100)

/-- Step 3: `stopLossDistance = |entryPrice - stopLossPrice|`. -/
def stopLossDistanceOf (cfg : RiskConfig) (entryPrice : ℚ) (direction : Direction) : ℚ :=
  |entryPrice - stopLossPriceOf cfg entryPrice direction|

/-- Step 4: `positionSize = (riskAmount / stopLossDistance) * entryPrice`. -/
def rawPositionSizeOf (cfg : RiskConfig) (balance entryPrice : ℚ) (direction : Direction) : ℚ :=
  riskAmountOf cfg balance / stopLossDistanceOf cfg entryPrice direction * entryPrice

/-- Step 5 (first half): `requiredMargin = positionSize / leverage`. -/
def rawRequiredMarginOf (cfg : RiskConfig) (balance entryPrice : ℚ) (direction : Direction) : ℚ :=
  rawPositionSizeOf cfg balance entryPrice direction / cfg.leverage

/-- Step 5 (second half): if the margin exceeds the balance, use the full
available margin, `positionSize = balance * leverage`. -/
def clampedPositionSizeOf (cfg : RiskConfig) (balance entryPrice : ℚ) (direction : Direction) : ℚ :=
  if rawRequiredMarginOf cfg balance entryPrice direction > balance then balance * cfg.leverage
  else rawPositionSizeOf cfg balance entryPrice direction

/-- Step 6: `quantity = positionSize / entryPrice` (before exchange rounding). -/
def rawQuantityOf (cfg : RiskConfig) (balance entryPrice : ℚ) (direction : Direction) : ℚ :=
  clampedPositionSizeOf cfg balance entryPrice direction / entryPrice

/-- Step 7: the take-profit price (plus the percentage for LONG, minus for SHORT). -/
def takeProfitPriceOf (cfg : RiskConfig) (entryPrice : ℚ) (direction : Direction) : ℚ :=
  match direction with
  | .LONG => entryPrice * (1 + cfg.takeProfitPercent / 100)
  | .SHORT => entryPrice * (1 - cfg.takeProfitPercent / 100)

/-- `risk.service.js` `calculatePositionParameters(balance, entryPrice,
direction, symbolInfo)`.  Steps 1-7 are the named functions above; steps
8-10 (rounding, min/max clamping with `positionSize` recomputation, final
margin check) are inline, exactly as in the source.  The source's
invalid-direction throw cannot fire on the `Direction` enumeration. -/
def calculatePositionParameters (cfg : RiskConfig) (balance entryPrice : ℚ)
    (direction : Direction) (symbolInfo : SymbolInfo) : Except RiskError PositionParams :=
  if balance ≤ 0 then .error .invalidBalance
  else if entryPrice ≤ 0 then .error .invalidEntryPrice
  else if stopLossDistanceOf cfg entryPrice direction ≤ 0 then .error .degenerateStop
  else
    let quantity1 := roundQuantity (rawQuantityOf cfg balance entryPrice direction) symbolInfo.tickPrec
    let quantity2 := if quantity1 < symbolInfo.minQty then symbolInfo.minQty else quantity1
    let positionSize2 :=
      if quantity1 < symbolInfo.minQty then quantity2 * entryPrice
      else clampedPositionSizeOf cfg balance entryPrice direction
    let quantity3 := if quantity2 > symbolInfo.maxQty then symbolInfo.maxQty else quantity2
    let positionSize3 := if quantity2 > symbolInfo.maxQty then quantity3 * entryPrice else positionSize2
    let finalRequiredMargin := quantity3 * entryPrice / cfg.leverage
    if finalRequiredMargin > balance then .error .insufficientBalance
    else
      .ok
        { entryPrice := roundPrice entryPrice symbolInfo.pricePrecision
          quantity := quantity3
          positionSize := positionSize3
          leverage := cfg.leverage
          requiredMargin := finalRequiredMargin
          stopLoss := roundPrice (stopLossPriceOf cfg entryPrice direction) symbolInfo.pricePrecision
          takeProfit := roundPrice (takeProfitPriceOf cfg entryPrice direction) symbolInfo.pricePrecision
          riskAmount := riskAmountOf cfg balance
          direction := direction }

/-- `risk.service.js` `hasSufficientBalance(balance, requiredMargin)`. -/
def hasSufficientBalance (balance requiredMargin : ℚ) : Bool :=
  isValidNumber balance && isValidNumber requiredMargin && decide (balance ≥ requiredMargin)

/-! ## Position Ledger (`position.service.js` `PositionService`) -/

/-- The record stored by `PositionService.addOpenPosition` (also the shape
of the `positionData` argument; a `timestamp` of `0` models the absent /
falsy timestamp that the source replaces by `Date.now()`). -/
structure OpenPos where
  symbol : String
  direction : Direction
  entryPrice : ℚ
  quantity : ℚ
  takeProfit : ℚ
  stopLoss : ℚ
  orderId : String
  timestamp : ℕ
  tpOrderId : String
  slOrderId : String
  deriving DecidableEq, Repr

/-- The `closedPositionData` built by `handlePositionClosed`: the tracked
position spread together with the exit fields.  `duration` holds the
duration in seconds (the source stores `formatDuration` of this value). -/
structure ClosedData where
  base : OpenPos
  exitPrice : ℚ
  pnl : ℚ
  pnlPercent : ℚ
  duration : ℕ
  deriving DecidableEq, Repr

/-- An entry of `closedPositions`: the closed-position data plus the
`closedAt: Date.now()` stamp added by `addClosedPosition`. -/
structure ClosedPos where
  data : ClosedData
  closedAt : ℕ
  deriving DecidableEq, Repr

/-- JavaScript `Map.set` on a symbol-keyed association list: replace the
binding in place when the key exists, otherwise append at the end. -/
def setPos : List OpenPos → OpenPos → List OpenPos
  | [], p => [p]
  | q :: rest, p => if q.symbol = p.symbol then p :: rest else q :: setPos rest p

/-- JavaScript `Map.get` / `Map.has` lookup. -/
def getPos (m : List OpenPos) (symbol : String) : Option OpenPos :=
  m.find? (fun p => p.symbol == symbol)

/-- JavaScript `Map.delete`: remove the (first) binding of the key. -/
def delPos (m : List OpenPos) (symbol : String) : List OpenPos :=
  m.eraseP (fun p => p.symbol == symbol)

/-- The mutable state of the `PositionService` singleton:
`openPositions` (a symbol-keyed map) and `closedPositions` (an array
grown by `push`). -/
structure LedgerState where
  openPositions : List OpenPos
  closedPositions : List ClosedPos
  deriving DecidableEq, Repr

/-- The empty ledger built by the `PositionService` constructor. -/
def LedgerState.empty : LedgerState :=
  { openPositions := [], closedPositions := [] }

/-- `PositionService.addOpenPosition(positionData)`:
`openPositions.set(symbol, {...fields, timestamp: timestamp || Date.now()})`.
`now` is `Date.now()` at the call. -/
def addOpenPosition (st : LedgerState) (positionData : OpenPos) (now : ℕ) : LedgerState :=
  { st with
      openPositions :=
        setPos st.openPositions
          { positionData with
              timestamp := if positionData.timestamp = 0 then now else positionData.timestamp } }

/-- `PositionService.removeOpenPosition(symbol)` (state effect only; the
source also returns the removed record). -/
def removeOpenPosition (st : LedgerState) (symbol : String) : LedgerState :=
  { st with openPositions := delPos st.openPositions symbol }

/-- `PositionService.addClosedPosition(positionData)`:
`closedPositions.push({...positionData, closedAt: Date.now()})`. -/
def addClosedPosition (st : LedgerState) (positionData : ClosedData) (now : ℕ) : LedgerState :=
  { st with closedPositions := st.closedPositions ++ [⟨positionData, now⟩] }

/-- `PositionService.hasOpenPosition(symbol)`. -/
def hasOpenPosition (st : LedgerState) (symbol : String) : Bool :=
  (getPos st.openPositions symbol).isSome

/-- `PositionService.getOpenPositionsCount()`. -/
def getOpenPositionsCount (st : LedgerState) : ℕ :=
  st.openPositions.length

/-- An execution record from `bybit.service.js` `getTradeHistory`
(`side` is the exchange's `Buy` / `Sell`, `execPrice` the parsed price). -/
inductive Side where
  | Buy
  | Sell
  deriving DecidableEq, Repr

structure Trade where
  symbol : String
  side : Side
  execPrice : ℚ
  deriving DecidableEq, Repr

/-- A live position reported by `bybit.service.js` `getOpenPositions`
(only the fields `checkPositions` inspects). -/
structure ExchangePos where
  symbol : String
  size : ℚ
  deriving DecidableEq, Repr

/-- The closing-trade predicate of `handlePositionClosed`:
`t.symbol === symbol && (t.side === Sell && direction === LONG ||
t.side === Buy && direction === SHORT)`. -/
def isCloseTrade (symbol : String) (direction : Direction) (t : Trade) : Bool :=
  t.symbol == symbol &&
    ((t.side == Side.Sell && direction == Direction.LONG) ||
     (t.side == Side.Buy && direction == Direction.SHORT))

/-- `PositionService.handlePositionClosed(symbol, trackedPosition)`:
`trades` is the list returned by `getTradeHistory(symbol, 10)` in the
order the gateway delivers it (most recent execution first), `now` is
`Date.now()`.  Finds the first (= most recent) closing trade, falls back
to the entry price, computes the PnL, appends to the closed history and
removes the symbol from the open map. -/
def handlePositionClosed (st : LedgerState) (symbol : String) (trackedPosition : OpenPos)
    (trades : List Trade) (now : ℕ) : LedgerState :=
  let closeTrade := trades.find? (isCloseTrade symbol trackedPosition.direction)
  let exitPrice :=
    match closeTrade with
    | some t => t.execPrice
    | none => trackedPosition.entryPrice
  let duration := (now - trackedPosition.timestamp) / 1000
  let pnl := calculatePnL trackedPosition.entryPrice exitPrice trackedPosition.quantity
    trackedPosition.direction
  let pnlPercent := calculatePnLPercent trackedPosition.entryPrice exitPrice
    trackedPosition.direction
  let st1 := addClosedPosition st ⟨trackedPosition, exitPrice, pnl, pnlPercent, duration⟩ now
  removeOpenPosition st1 symbol

/-- `PositionService.checkPositions()`: for every tracked position, close
it when the exchange reports no position (or size 0) for its symbol,
otherwise only refresh transient data (`updatePositionData` does not
touch the ledger).  `exchangePositions` is the `getOpenPositions()`
response and `tradesFor` the `getTradeHistory` response per symbol. -/
def checkPositions (st : LedgerState) (exchangePositions : List ExchangePos)
    (tradesFor : String → List Trade) (now : ℕ) : LedgerState :=
  st.openPositions.foldl
    (fun acc trackedPosition =>
      match exchangePositions.find? (fun p => p.symbol == trackedPosition.symbol) with
      | none => handlePositionClosed acc trackedPosition.symbol trackedPosition
          (tradesFor trackedPosition.symbol) now
      | some p =>
          if p.size = 0 then
            handlePositionClosed acc trackedPosition.symbol trackedPosition
              (tradesFor trackedPosition.symbol) now
          else acc)
    st

/-- The statistics snapshot of `PositionService.getStatistics()`. -/
structure LedgerStats where
  totalTrades : ℕ
  winTrades : ℕ
  loseTrades : ℕ
  totalPnl : ℚ
  openPositions : ℕ
  closedPositions : ℕ
  deriving DecidableEq, Repr

/-- `PositionService.getStatistics()` (win iff `pnl >= 0`). -/
def getStatistics (st : LedgerState) : LedgerStats :=
  let totalTrades := st.closedPositions.length
  let winTrades := (st.closedPositions.filter (fun p => decide (0 ≤ p.data.pnl))).length
  { totalTrades := totalTrades
    winTrades := winTrades
    loseTrades := totalTrades - winTrades
    totalPnl := (st.closedPositions.map (fun p => p.data.pnl)).sum
    openPositions := st.openPositions.length
    closedPositions := totalTrades }

/-- `PositionService.resetDailyStatistics()`: `closedPositions = []`. -/
def resetDailyStatistics (st : LedgerState) : LedgerState :=
  { st with closedPositions := [] }

/-- The ledger-mutating operations of `PositionService` (reads such as
`getStatistics` and `updatePositionData` leave the ledger unchanged and
are omitted). -/
inductive LedgerOp where
  | addOpen (positionData : OpenPos) (now : ℕ)
  | removeOpen (symbol : String)
  | addClosed (positionData : ClosedData) (now : ℕ)
  | handleClosed (symbol : String) (trackedPosition : OpenPos) (trades : List Trade) (now : ℕ)
  | reconcile (exchangePositions : List ExchangePos) (tradesFor : String → List Trade) (now : ℕ)
  | resetDaily

/-- Apply one ledger operation. -/
def applyOp (op : LedgerOp) (st : LedgerState) : LedgerState :=
  match op with
  | .addOpen positionData now => addOpenPosition st positionData now
  | .removeOpen symbol => removeOpenPosition st symbol
  | .addClosed positionData now => addClosedPosition st positionData now
  | .handleClosed symbol trackedPosition trades now =>
      handlePositionClosed st symbol trackedPosition trades now
  | .reconcile exchangePositions tradesFor now => checkPositions st exchangePositions tradesFor now
  | .resetDaily => resetDailyStatistics st

/-! ## Trading hours (`time.service.js`) -/

/-- `time.service.js` `isTradingHoursActive()`, with the configuration
(`enabled`, `startHour`, `endHour`) and the current UTC hour passed
explicitly.  When `endHour > startHour` the window is
`startHour ≤ now < endHour`; otherwise it wraps midnight:
`now ≥ startHour || now < endHour`. -/
def isTradingHoursActive (enabled : Bool) (startHour endHour currentHour : ℕ) : Bool :=
  if enabled = false then true
  else if endHour > startHour then
    decide (currentHour ≥ startHour) && decide (currentHour < endHour)
  else
    decide (currentHour ≥ startHour) || decide (currentHour < endHour)

/-! ## Signal validation (`index.js` `validateSignal`) -/

/-- `helpers.js` `isSymbolAllowed(symbol, allowedSymbols)`: membership up
to upper-casing.  (The source receives the allow-list as a comma-joined
string and splits/trims it back; symbols contain no commas or spaces, so
the round trip is the identity and we keep the list.) -/
def isSymbolAllowed (symbol : String) (allowedSymbols : List String) : Bool :=
  (allowedSymbols.map String.toUpper).contains symbol.toUpper

/-- A raw parsed signal as handed to `validateSignal`: the direction is
still a plain string at this point. -/
structure Signal where
  symbol : String
  direction : String
  deriving DecidableEq, Repr

/-- The rejection exits of `validateSignal` (the source carries
human-readable reason strings; the constructor identifies which check
produced the rejection). -/
inductive RejectReason where
  | symbolNotAllowed
  | invalidDirection
  | outsideTradingHours
  | positionExists
  | maxOpenPositionsReached
  | maxDailyTradesReached
  | balanceFetchError
  | insufficientBalance
  | symbolInfoError
  | symbolNotTrading
  deriving DecidableEq, Repr

/-- Everything `validateSignal` consults: configuration, the clock, the
position ledger, the daily-trade counter, and the observable responses of
the two exchange queries it makes (`getUSDTBalance`, `getSymbolInfo`,
either of which can throw).  The symbol-info payload is reduced to its
`status` string, the only field the validator reads. -/
structure ValidationEnv where
  allowedSymbols : List String
  tradingHoursEnabled : Bool
  startHour : ℕ
  endHour : ℕ
  currentHour : ℕ
  ledger : LedgerState
  maxOpenPositions : ℕ
  dailyTrades : ℕ
  maxDailyTrades : ℕ
  balanceResult : Except String ℚ
  symbolStatusResult : Except String String

/-- `index.js` `validateSignal(signal)`: the eight checks with their
early returns, in source order.  `none` is the `{valid: true}` outcome. -/
def validateSignal (env : ValidationEnv) (signal : Signal) : Option RejectReason :=
  if ¬ isSymbolAllowed signal.symbol env.allowedSymbols then some .symbolNotAllowed
  else if signal.direction ≠ "LONG" ∧ signal.direction ≠ "SHORT" then some .invalidDirection
  else if ¬ isTradingHoursActive env.tradingHoursEnabled env.startHour env.endHour
      env.currentHour then some .outsideTradingHours
  else if hasOpenPosition env.ledger signal.symbol then some .positionExists
  else if getOpenPositionsCount env.ledger ≥ env.maxOpenPositions then
    some .maxOpenPositionsReached
  else if env.dailyTrades ≥ env.maxDailyTrades then some .maxDailyTradesReached
  else
    match env.balanceResult with
    | .error _ => some .balanceFetchError
    | .ok balance =>
        if balance ≤ 0 then some .insufficientBalance
        else
          match env.symbolStatusResult with
          | .error _ => some .symbolInfoError
          | .ok status =>
              if status ≠ "Trading" then some .symbolNotTrading
              else none

/-- The specification's ordered check list, each check written from the
spec's words as an independent test of the environment (no
short-circuiting structure): used to state that the source validator
returns the rejection of the first failing check. -/
def specChecks : List (ValidationEnv → Signal → Option RejectReason) :=
  [ fun env signal =>
      if isSymbolAllowed signal.symbol env.allowedSymbols then none else some .symbolNotAllowed,
    fun _ signal =>
      if signal.direction = "LONG" ∨ signal.direction = "SHORT" then none
      else some .invalidDirection,
    fun env _ =>
      if isTradingHoursActive env.tradingHoursEnabled env.startHour env.endHour env.currentHour
      then none else some .outsideTradingHours,
    fun env signal =>
      if hasOpenPosition env.ledger signal.symbol then some .positionExists else none,
    fun env _ =>
      if getOpenPositionsCount env.ledger ≥ env.maxOpenPositions then
        some .maxOpenPositionsReached
      else none,
    fun env _ =>
      if env.dailyTrades ≥ env.maxDailyTrades then some .maxDailyTradesReached else none,
    fun env _ =>
      match env.balanceResult with
      | .error _ => some .balanceFetchError
      | .ok balance => if balance ≤ 0 then some .insufficientBalance else none,
    fun env _ =>
      match env.symbolStatusResult with
      | .error _ => some .symbolInfoError
      | .ok status => if status ≠ "Trading" then some .symbolNotTrading else none ]

/-- The first `some` of a list of check outcomes (`none` when all pass). -/
def firstSome : List (Option RejectReason) → Option RejectReason
  | [] => none
  | some r :: _ => some r
  | none :: rest => firstSome rest

/-- The rejection of the first failing check of `specChecks`
(`none` when every check passes). -/
def firstFailingCheck (env : ValidationEnv) (signal : Signal) : Option RejectReason :=
  firstSome (specChecks.map (fun check => check env signal))

/-! ## Exchange gateway responses (`bybit.service.js`) -/

/-- The observable part of a Bybit V5 REST response: the return code, the
return message, and (for order submissions) the order id of the result
payload, `""` when absent. -/
structure ApiResponse where
  retCode : ℤ
  retMsg : String
  orderId : String
  deriving DecidableEq, Repr

/-- `bybit.service.js` `setLeverage(symbol, leverage)`, as a function of
the exchange response: the `leverage not modified` / `110043` responses
are treated as success before the generic `retCode !== 0` throw.  (The
source's catch block re-applies the same message test to thrown errors,
with the same outcome.) -/
def setLeverageOutcome (resp : ApiResponse) : Except String Unit :=
  if resp.retMsg = "leverage not modified" ∨ resp.retCode = 110043 then .ok ()
  else if resp.retCode ≠ 0 then .error ("Failed to set leverage: " ++ resp.retMsg)
  else .ok ()

/-- `bybit.service.js` `openMarketOrder`: `retCode !== 0` throws,
otherwise the order id is returned. -/
def openMarketOrderOutcome (resp : ApiResponse) : Except String String :=
  if resp.retCode ≠ 0 then .error ("Failed to open order: " ++ resp.retMsg)
  else .ok resp.orderId

/-- `bybit.service.js` `setTakeProfit` (`setTradingStop` path):
`retCode !== 0` throws, otherwise the order id with its sentinel default. -/
def setTakeProfitOutcome (resp : ApiResponse) : Except String String :=
  if resp.retCode ≠ 0 then .error ("Failed to set Take Profit: " ++ resp.retMsg)
  else .ok (if resp.orderId = "" then "TP_SET_TRADING_STOP" else resp.orderId)

/-- `bybit.service.js` `setStopLoss` (`setTradingStop` path). -/
def setStopLossOutcome (resp : ApiResponse) : Except String String :=
  if resp.retCode ≠ 0 then .error ("Failed to set Stop Loss: " ++ resp.retMsg)
  else .ok (if resp.orderId = "" then "SL_SET_TRADING_STOP" else resp.orderId)

/-- A model of the exchange side of `setLeverage`, per the gateway
contract (`setLeverage(symbol, n) → ok | AlreadySet | Error`): the
exchange answers `110043 leverage not modified` when the leverage is
already at the requested value, else applies it with `retCode 0`.
`current` is the leverage currently set on the exchange. -/
def exchangeSetLeverage (current : Option ℚ) (requested : ℚ) : ApiResponse × Option ℚ :=
  if current = some requested then
    ({ retCode := 110043, retMsg := "leverage not modified", orderId := "" }, current)
  else
    ({ retCode := 0, retMsg := "OK", orderId := "" }, some requested)

/-! ## Order sequencing (`index.js` `openPosition`, order-leg phase) -/

/-- The exchange calls the order-leg phase of `openPosition` can issue,
in the order it issues them. -/
inductive ExchangeAction where
  | setLeverage
  | marketOrder
  | setTP
  | setSL
  deriving DecidableEq, Repr

/-- The exchange responses the four legs would receive. -/
structure LegResponses where
  leverageResp : ApiResponse
  entryResp : ApiResponse
  tpResp : ApiResponse
  slResp : ApiResponse
  deriving DecidableEq, Repr

/-- The order-leg phase of `index.js` `openPosition` (source steps 1-5,
after the sizing phase has produced `positionParams`): set leverage, open
the market entry order, set take profit, set stop loss, then — only after
all four succeeded — insert the position into the ledger.  Any throw
propagates (the surrounding catch merely logs and rethrows).  In dry-run
mode no exchange call is made and a synthetic record with sentinel order
ids is inserted (`dryRunTag` stands for the `Date.now()` suffix of the
synthetic order id).  Returns the outcome, the ledger after the call and
the trace of exchange calls issued. -/
def openPositionLegs (dryRun : Bool) (signal : Signal) (direction : Direction)
    (positionParams : PositionParams) (timestamp : ℕ) (responses : LegResponses)
    (st : LedgerState) (now : ℕ) (dryRunTag : String) :
    Except String Unit × LedgerState × List ExchangeAction :=
  if dryRun then
    (.ok (),
     addOpenPosition st
       { symbol := signal.symbol
         direction := direction
         entryPrice := positionParams.entryPrice
         quantity := positionParams.quantity
         takeProfit := positionParams.takeProfit
         stopLoss := positionParams.stopLoss
         orderId := "DRY_RUN_" ++ dryRunTag
         timestamp := timestamp
         tpOrderId := "DRY_RUN_TP"
         slOrderId := "DRY_RUN_SL" } now,
     [])
  else
    match setLeverageOutcome responses.leverageResp with
    | .error e => (.error e, st, [.setLeverage])
    | .ok _ =>
        match openMarketOrderOutcome responses.entryResp with
        | .error e => (.error e, st, [.setLeverage, .marketOrder])
        | .ok entryOrderId =>
            match setTakeProfitOutcome responses.tpResp with
            | .error e => (.error e, st, [.setLeverage, .marketOrder, .setTP])
            | .ok tpOrderId =>
                match setStopLossOutcome responses.slResp with
                | .error e => (.error e, st, [.setLeverage, .marketOrder, .setTP, .setSL])
                | .ok slOrderId =>
                    (.ok (),
                     addOpenPosition st
                       { symbol := signal.symbol
                         direction := direction
                         entryPrice := positionParams.entryPrice
                         quantity := positionParams.quantity
                         takeProfit := positionParams.takeProfit
                         stopLoss := positionParams.stopLoss
                         orderId := entryOrderId
                         timestamp := timestamp
                         tpOrderId := tpOrderId
                         slOrderId := slOrderId } now,
                     [.setLeverage, .marketOrder, .setTP, .setSL])

/-! ## Concrete scenario data used by the theorems below -/

/-- A successful exchange response carrying the entry order id `E1`. -/
def okEntryResp : ApiResponse := { retCode := 0, retMsg := "OK", orderId := "E1" }

/-- A successful exchange response with no order id payload. -/
def okPlainResp : ApiResponse := { retCode := 0, retMsg := "OK", orderId := "" }

/-- A failing exchange response. -/
def failResp : ApiResponse := { retCode := 1, retMsg := "boom", orderId := "" }

/-- The ADAUSDT LONG signal used in the concrete scenarios. -/
def adaSignal : Signal := { symbol := "ADAUSDT", direction := "LONG" }

/-- Position parameters used in the concrete order-sequencing scenarios. -/
def adaParams : PositionParams :=
  { entryPrice := 100, quantity := 10, positionSize := 1000, leverage := 20,
    requiredMargin := 50, stopLoss := 997/10, takeProfit := 201/2, riskAmount := 25,
    direction := .LONG }

/-- Leg responses in which leverage and entry succeed but take-profit
placement fails. -/
def tpFailLegs : LegResponses :=
  { leverageResp := okPlainResp, entryResp := okEntryResp, tpResp := failResp,
    slResp := okPlainResp }

/-- Leg responses in which all four legs succeed. -/
def allOkLegs : LegResponses :=
  { leverageResp := okPlainResp, entryResp := okEntryResp, tpResp := okPlainResp,
    slResp := okPlainResp }

/-- Instrument constraints whose `minQty` (100.005) is not a multiple of
the tick size `0.01`. -/
def fractionalMinQtyInfo : SymbolInfo :=
  { tickPrec := 2, minQty := 20001/200, maxQty := 1000, pricePrecision := 4 }

/-- Unconstraining instrument constraints (tick 0.0001, wide bounds). -/
def wideSymbolInfo : SymbolInfo :=
  { tickPrec := 4, minQty := 0, maxQty := 1000000, pricePrecision := 4 }

/-- A tracked ADAUSDT LONG position used in the reconciliation scenarios. -/
def adaTracked : OpenPos :=
  { symbol := "ADAUSDT", direction := .LONG, entryPrice := 100, quantity := 10,
    takeProfit := 201/2, stopLoss := 997/10, orderId := "E1", timestamp := 5000,
    tpOrderId := "T1", slOrderId := "S1" }

/-- A recent Sell execution at 100.5 on ADAUSDT (a closing trade for a
LONG position). -/
def adaSellTrade : Trade := { symbol := "ADAUSDT", side := .Sell, execPrice := 201/2 }

/-- A closed-position record used in the history scenarios. -/
def adaClosed : ClosedPos :=
  { data := { base := adaTracked, exitPrice := 201/2, pnl := 5, pnlPercent := 1/2,
              duration := 4 },
    closedAt := 9000 }

/-- A ledger holding one closed position and no open ones. -/
def oneClosedLedger : LedgerState :=
  { openPositions := [], closedPositions := [adaClosed] }

/-- A ledger tracking one open ADAUSDT position. -/
def oneOpenLedger : LedgerState :=
  { openPositions := [adaTracked], closedPositions := [] }

/-! ## Helper lemmas -/

/-- `jsRound` is the identity on integers. -/
theorem jsRound_intCast (k : ℤ) : jsRound (k : ℚ) = k := by
  unfold jsRound
  rw [add_comm, Int.floor_add_int]
  norm_num

/-- `roundToDecimal` fixes every value already representable with
`decimals` decimal places. -/
theorem roundToDecimal_fixed (k : ℤ) (decimals : ℕ) :
    roundToDecimal ((k : ℚ) / 10 ^ decimals) decimals = (k : ℚ) / 10 ^ decimals := by
  unfold roundToDecimal
  rw [div_mul_cancel₀ _ (by positivity : ((10 : ℚ) ^ decimals) ≠ 0), jsRound_intCast]

/-- Every output of `roundToDecimal` is of the form `k / 10 ^ decimals`. -/
theorem roundToDecimal_mem_grid (value : ℚ) (decimals : ℕ) :
    ∃ k : ℤ, roundToDecimal value decimals = (k : ℚ) / 10 ^ decimals :=
  ⟨jsRound (value * 10 ^ decimals), rfl⟩

/-! ## Claim theorems -/

/-- C8: price rounding is idempotent: every price already representable at
`pricePrecision` decimal places (i.e. of the form `k / 10^pricePrecision`)
is returned unchanged by `roundPrice`, and for every price
`roundPrice (roundPrice p prec) prec = roundPrice p prec`. -/
theorem roundPrice_idempotent :
    (∀ (k : ℤ) (pricePrecision : ℕ),
        roundPrice ((k : ℚ) / 10 ^ pricePrecision) pricePrecision =
          (k : ℚ) / 10 ^ pricePrecision) ∧
    (∀ (price : ℚ) (pricePrecision : ℕ),
        roundPrice (roundPrice price pricePrecision) pricePrecision =
          roundPrice price pricePrecision) := by
  constructor
  · intro k pricePrecision
    exact roundToDecimal_fixed k pricePrecision
  · intro price pricePrecision
    obtain ⟨k, hk⟩ := roundToDecimal_mem_grid price pricePrecision
    show roundToDecimal (roundToDecimal price pricePrecision) pricePrecision =
      roundToDecimal price pricePrecision
    rw [hk, roundToDecimal_fixed]

/-- C5: with trading hours enabled, the window is active iff
(`endHour > startHour` and `startHour ≤ now < endHour`) or, in the
wraparound case, `now ≥ startHour ∨ now < endHour`; in particular with
start 6 / end 22 the hours 5 and 22 are inactive while 6 and 21 are
active, and with start 22 / end 6 the hours 23 and 5 are active while 10
is inactive. -/
theorem tradingHours_window :
    (∀ startHour endHour currentHour : ℕ,
        isTradingHoursActive true startHour endHour currentHour = true ↔
          (if endHour > startHour then startHour ≤ currentHour ∧ currentHour < endHour
           else currentHour ≥ startHour ∨ currentHour < endHour)) ∧
    isTradingHoursActive true 6 22 5 = false ∧
    isTradingHoursActive true 6 22 6 = true ∧
    isTradingHoursActive true 6 22 21 = true ∧
    isTradingHoursActive true 6 22 22 = false ∧
    isTradingHoursActive true 22 6 23 = true ∧
    isTradingHoursActive true 22 6 5 = true ∧
    isTradingHoursActive true 22 6 10 = false := by
  refine ⟨?_, by decide, by decide, by decide, by decide, by decide, by decide, by decide⟩
  intro startHour endHour currentHour
  unfold isTradingHoursActive
  split_ifs <;> simp_all

/-- `roundPrice` fixes prices already on the precision grid. -/
theorem roundPrice_fixed (k : ℤ) (d : ℕ) :
    roundPrice ((k : ℚ) / 10 ^ d) d = (k : ℚ) / 10 ^ d :=
  roundToDecimal_fixed k d

/-- Scenario step: `riskAmount` for balance 1000 at 2.5 %. -/
theorem scenario_riskAmount : riskAmountOf defaultRiskConfig 1000 = 25 := by
  unfold riskAmountOf defaultRiskConfig; norm_num

/-- Scenario step: stop-loss price for entry 100 LONG at 0.3 %. -/
theorem scenario_stopLossPrice : stopLossPriceOf defaultRiskConfig 100 .LONG = 99.7 := by
  unfold stopLossPriceOf defaultRiskConfig; norm_num

/-- Scenario step: stop distance for entry 100 LONG. -/
theorem scenario_stopLossDistance :
    stopLossDistanceOf defaultRiskConfig 100 .LONG = 0.3 := by
  unfold stopLossDistanceOf
  rw [scenario_stopLossPrice, show (100:ℚ) - 99.7 = 0.3 by norm_num]
  exact abs_of_pos (by norm_num)

/-- Scenario step: unclamped notional position size. -/
theorem scenario_rawPositionSize :
    rawPositionSizeOf defaultRiskConfig 1000 100 .LONG = 25000/3 := by
  unfold rawPositionSizeOf
  rw [scenario_riskAmount, scenario_stopLossDistance]
  norm_num

/-- Scenario step: the notional displayed at two decimals. -/
theorem scenario_positionSize_rounded : roundToDecimal ((25000:ℚ)/3) 2 = 8333.33 := by
  unfold roundToDecimal jsRound
  rw [show (25000:ℚ)/3 * 10^2 + 1/2 = 5000003/6 by norm_num,
    show ⌊(5000003:ℚ)/6⌋ = 833333 by rw [Int.floor_eq_iff]; norm_num]
  norm_num

/-- Scenario step: unclamped required margin. -/
theorem scenario_rawRequiredMargin :
    rawRequiredMarginOf defaultRiskConfig 1000 100 .LONG = 1250/3 := by
  unfold rawRequiredMarginOf
  rw [scenario_rawPositionSize]
  norm_num [defaultRiskConfig]

/-- Scenario step: the margin displayed at two decimals. -/
theorem scenario_margin_rounded : roundToDecimal ((1250:ℚ)/3) 2 = 416.67 := by
  unfold roundToDecimal jsRound
  rw [show (1250:ℚ)/3 * 10^2 + 1/2 = 250003/6 by norm_num,
    show ⌊(250003:ℚ)/6⌋ = 41667 by rw [Int.floor_eq_iff]; norm_num]
  norm_num

/-- Scenario step: the margin does not exceed the balance. -/
theorem scenario_noClamp : ¬ rawRequiredMarginOf defaultRiskConfig 1000 100 .LONG > 1000 := by
  rw [scenario_rawRequiredMargin]; norm_num

/-- Scenario step: no clamp is applied to the notional. -/
theorem scenario_clampedPositionSize :
    clampedPositionSizeOf defaultRiskConfig 1000 100 .LONG =
      rawPositionSizeOf defaultRiskConfig 1000 100 .LONG := by
  unfold clampedPositionSizeOf
  rw [if_neg scenario_noClamp]

/-- Scenario step: pre-rounding quantity. -/
theorem scenario_rawQuantity : rawQuantityOf defaultRiskConfig 1000 100 .LONG = 250/3 := by
  unfold rawQuantityOf
  rw [scenario_clampedPositionSize, scenario_rawPositionSize]
  norm_num

/-- Scenario step: the quantity displayed at two decimals. -/
theorem scenario_quantity_rounded : roundToDecimal ((250:ℚ)/3) 2 = 83.33 := by
  unfold roundToDecimal jsRound
  rw [show (250:ℚ)/3 * 10^2 + 1/2 = 50003/6 by norm_num,
    show ⌊(50003:ℚ)/6⌋ = 8333 by rw [Int.floor_eq_iff]; norm_num]
  norm_num

/-- Scenario step: take-profit price for entry 100 LONG at 0.5 %. -/
theorem scenario_takeProfitPrice : takeProfitPriceOf defaultRiskConfig 100 .LONG = 100.5 := by
  unfold takeProfitPriceOf defaultRiskConfig; norm_num

/-- C3: on balance 1000, entry 100, LONG under the default configuration
(riskPercent 2.5, leverage 20, stopLoss 0.3 %, takeProfit 0.5 %) the
sizing steps produce riskAmount 25, stopLossPrice 99.7, stopDistance 0.3,
positionSizeNotional 25/0.3x100 = 25000/3 (displayed 8333.33 at two
decimals), requiredMargin 1250/3 (displayed 416.67) with no clamp applied
(it does not exceed 1000), pre-rounding quantity 250/3 (displayed 83.33)
and takeProfitPrice 100.5. -/
theorem riskScenario_values :
    riskAmountOf defaultRiskConfig 1000 = 25 ∧
    stopLossPriceOf defaultRiskConfig 100 .LONG = 99.7 ∧
    stopLossDistanceOf defaultRiskConfig 100 .LONG = 0.3 ∧
    rawPositionSizeOf defaultRiskConfig 1000 100 .LONG = 25000/3 ∧
    roundToDecimal (rawPositionSizeOf defaultRiskConfig 1000 100 .LONG) 2 = 8333.33 ∧
    rawRequiredMarginOf defaultRiskConfig 1000 100 .LONG = 1250/3 ∧
    roundToDecimal (rawRequiredMarginOf defaultRiskConfig 1000 100 .LONG) 2 = 416.67 ∧
    ¬ rawRequiredMarginOf defaultRiskConfig 1000 100 .LONG > 1000 ∧
    clampedPositionSizeOf defaultRiskConfig 1000 100 .LONG =
      rawPositionSizeOf defaultRiskConfig 1000 100 .LONG ∧
    rawQuantityOf defaultRiskConfig 1000 100 .LONG = 250/3 ∧
    roundToDecimal (rawQuantityOf defaultRiskConfig 1000 100 .LONG) 2 = 83.33 ∧
    takeProfitPriceOf defaultRiskConfig 100 .LONG = 100.5 :=
  ⟨scenario_riskAmount, scenario_stopLossPrice, scenario_stopLossDistance,
    scenario_rawPositionSize,
    by rw [scenario_rawPositionSize]; exact scenario_positionSize_rounded,
    scenario_rawRequiredMargin,
    by rw [scenario_rawRequiredMargin]; exact scenario_margin_rounded,
    scenario_noClamp, scenario_clampedPositionSize, scenario_rawQuantity,
    by rw [scenario_rawQuantity]; exact scenario_quantity_rounded,
    scenario_takeProfitPrice⟩

/-- C6: `validateSignal` equals the first-failure semantics of the
specification's fixed check order — symbol allow-list membership, then
direction well-formed, then trading-hours window, then no existing open
position, then open-position count below the maximum, then daily-trade
count below the maximum, then balance positive, then instrument tradable
— returning the rejection of the first failing check (later checks do not
influence the result) and valid (`none`) when all pass. -/
theorem validateSignal_first_failure (env : ValidationEnv) (signal : Signal) :
    validateSignal env signal = firstFailingCheck env signal := by
  unfold validateSignal firstFailingCheck specChecks
  simp only [List.map_cons, List.map_nil]
  by_cases h1 : isSymbolAllowed signal.symbol env.allowedSymbols <;>
    by_cases hL : signal.direction = "LONG" <;>
    by_cases hS : signal.direction = "SHORT" <;>
    by_cases h3 : isTradingHoursActive env.tradingHoursEnabled env.startHour env.endHour
      env.currentHour <;>
    by_cases h4 : hasOpenPosition env.ledger signal.symbol <;>
    by_cases h5 : getOpenPositionsCount env.ledger ≥ env.maxOpenPositions <;>
    by_cases h6 : env.dailyTrades ≥ env.maxDailyTrades <;>
    cases hb : env.balanceResult <;>
    (try simp_all [firstSome]) <;>
    (try split_ifs) <;>
    (first | simp_all [firstSome] | omega) <;>
    (cases hs : env.symbolStatusResult <;> simp_all [firstSome] <;> split_ifs <;>
      simp [firstSome])

/-- Unfolding equation of `setPos` on the empty map. -/
theorem setPos_nil (p : OpenPos) : setPos [] p = [p] := rfl

/-- Unfolding equation of `setPos` on a non-empty map. -/
theorem setPos_cons (q : OpenPos) (rest : List OpenPos) (p : OpenPos) :
    setPos (q :: rest) p = if q.symbol = p.symbol then p :: rest else q :: setPos rest p := by
  simp only [setPos]

/-- `Map.set` then `Map.get` at the written key returns the written record. -/
theorem getPos_setPos_self (m : List OpenPos) (p : OpenPos) :
    getPos (setPos m p) p.symbol = some p := by
  induction m with
  | nil =>
      simp only [setPos, getPos]
      rw [List.find?_cons_of_pos _ (by simp)]
  | cons q rest ih =>
      by_cases h : q.symbol = p.symbol
      · simp only [setPos, if_pos h, getPos]
        rw [List.find?_cons_of_pos _ (by simp)]
      · simp only [setPos, if_neg h, getPos] at ih ⊢
        rw [List.find?_cons_of_neg _ (by simpa using h)]
        exact ih

/-- `Map.set` leaves every other key's binding unchanged. -/
theorem getPos_setPos_ne (m : List OpenPos) (p : OpenPos) (s : String)
    (hs : s ≠ p.symbol) : getPos (setPos m p) s = getPos m s := by
  induction m with
  | nil =>
      simp only [setPos, getPos]
      rw [List.find?_cons_of_neg _ (by simpa using fun h => hs h.symm)]
  | cons q rest ih =>
      by_cases h : q.symbol = p.symbol
      · simp only [setPos, if_pos h, getPos]
        rw [List.find?_cons_of_neg _ (by simpa using fun h2 => hs h2.symm),
          List.find?_cons_of_neg _ (by simpa using fun h2 => hs ((h.symm.trans h2).symm))]
      · simp only [setPos, if_neg h, getPos] at ih ⊢
        cases hqs : q.symbol == s with
        | true =>
            rw [List.find?_cons_of_pos _ (by simp [hqs]),
              List.find?_cons_of_pos _ (by simp [hqs])]
        | false =>
            rw [List.find?_cons_of_neg _ (by simp [hqs]),
              List.find?_cons_of_neg _ (by simp [hqs])]
            exact ih

/-- The key set after `Map.set` is the old key set plus the written key. -/
theorem mem_keys_setPos (m : List OpenPos) (p : OpenPos) (s : String) :
    s ∈ (setPos m p).map OpenPos.symbol ↔ s ∈ m.map OpenPos.symbol ∨ s = p.symbol := by
  induction m with
  | nil =>
      simp only [setPos, List.map_cons, List.map_nil, List.mem_cons, List.not_mem_nil]
      tauto
  | cons q rest ih =>
      by_cases h : q.symbol = p.symbol
      · rw [setPos_cons, if_pos h]
        simp only [List.map_cons, List.mem_cons, h]
        tauto
      · rw [setPos_cons, if_neg h]
        simp only [List.map_cons, List.mem_cons, ih]
        tauto

/-- `Map.set` preserves distinctness of the keys. -/
theorem nodup_keys_setPos (m : List OpenPos) (p : OpenPos) :
    (m.map OpenPos.symbol).Nodup → ((setPos m p).map OpenPos.symbol).Nodup := by
  induction m with
  | nil => intro _; simp [setPos]
  | cons q rest ih =>
      intro hnd
      rw [List.map_cons, List.nodup_cons] at hnd
      by_cases h : q.symbol = p.symbol
      · simp only [setPos, if_pos h, List.map_cons, List.nodup_cons]
        exact ⟨h ▸ hnd.1, hnd.2⟩
      · simp only [setPos, if_neg h, List.map_cons, List.nodup_cons]
        refine ⟨?_, ih hnd.2⟩
        rw [mem_keys_setPos]
        rintro (hmem | hmem)
        · exact hnd.1 hmem
        · exact h hmem

/-- A key that is absent from the map is bound zero times. -/
theorem countP_eq_zero_of_not_mem_keys (m : List OpenPos) (s : String)
    (h : s ∉ m.map OpenPos.symbol) :
    m.countP (fun q => q.symbol == s) = 0 := by
  rw [List.countP_eq_zero]
  intro a ha hcontra
  exact h (List.mem_map.2 ⟨a, ha, by simpa using hcontra⟩)

/-- After `Map.set` on a map with distinct keys, the written key is bound
exactly once. -/
theorem countP_setPos (m : List OpenPos) (p : OpenPos) :
    (m.map OpenPos.symbol).Nodup →
      (setPos m p).countP (fun q => q.symbol == p.symbol) = 1 := by
  induction m with
  | nil => intro _; simp [setPos, List.countP_cons]
  | cons q rest ih =>
      intro hnd
      rw [List.map_cons, List.nodup_cons] at hnd
      by_cases h : q.symbol = p.symbol
      · have hzero : rest.countP (fun q => q.symbol == p.symbol) = 0 :=
          countP_eq_zero_of_not_mem_keys rest p.symbol (h ▸ hnd.1)
        simp [setPos, if_pos h, List.countP_cons, hzero]
      · simp only [setPos, if_neg h]
        rw [List.countP_cons_of_neg _ _ (by simpa using h)]
        exact ih hnd.2

/-- C10: `addOpenPosition` stores the record under its symbol key
(timestamp defaulted when falsy), silently replacing any existing binding
for that symbol; every other symbol's binding and the closed-position
history are unchanged; key distinctness is preserved and the symbol ends
up bound exactly once — the ledger never holds two open positions for one
symbol. -/
theorem addOpenPosition_frame (st : LedgerState) (positionData : OpenPos) (now : ℕ)
    (hnd : (st.openPositions.map OpenPos.symbol).Nodup) :
    getPos (addOpenPosition st positionData now).openPositions positionData.symbol =
      some { positionData with
          timestamp := if positionData.timestamp = 0 then now else positionData.timestamp } ∧
    (∀ s, s ≠ positionData.symbol →
      getPos (addOpenPosition st positionData now).openPositions s =
        getPos st.openPositions s) ∧
    (addOpenPosition st positionData now).closedPositions = st.closedPositions ∧
    ((addOpenPosition st positionData now).openPositions.map OpenPos.symbol).Nodup ∧
    (addOpenPosition st positionData now).openPositions.countP
      (fun q => q.symbol == positionData.symbol) = 1 := by
  refine ⟨?_, ?_, rfl, ?_, ?_⟩
  · exact getPos_setPos_self st.openPositions
      { positionData with
          timestamp := if positionData.timestamp = 0 then now else positionData.timestamp }
  · exact fun s hs => getPos_setPos_ne st.openPositions
      { positionData with
          timestamp := if positionData.timestamp = 0 then now else positionData.timestamp } s hs
  · exact nodup_keys_setPos st.openPositions
      { positionData with
          timestamp := if positionData.timestamp = 0 then now else positionData.timestamp } hnd
  · exact countP_setPos st.openPositions
      { positionData with
          timestamp := if positionData.timestamp = 0 then now else positionData.timestamp } hnd

/-- C10 witness: `addOpenPosition` on a concrete one-position ledger. -/
theorem addOpenPosition_frame_witness :
    (((oneOpenLedger.openPositions.map OpenPos.symbol).Nodup) ∧
      getPos (addOpenPosition oneOpenLedger adaTracked 7).openPositions adaTracked.symbol =
        some { adaTracked with
            timestamp := if adaTracked.timestamp = 0 then 7 else adaTracked.timestamp } ∧
      (addOpenPosition oneOpenLedger adaTracked 7).closedPositions =
        oneOpenLedger.closedPositions) := by
  have hnd : (oneOpenLedger.openPositions.map OpenPos.symbol).Nodup := by
    simp [oneOpenLedger]
  obtain ⟨h1, _, h3, _, _⟩ := addOpenPosition_frame oneOpenLedger adaTracked 7 hnd
  exact ⟨hnd, h1, h3⟩

/-- `handlePositionClosed` appends exactly one record to the closed
history. -/
theorem handlePositionClosed_closed_append (st : LedgerState) (symbol : String)
    (trackedPosition : OpenPos) (trades : List Trade) (now : ℕ) :
    ∃ c, (handlePositionClosed st symbol trackedPosition trades now).closedPositions =
      st.closedPositions ++ [c] :=
  ⟨_, rfl⟩

/-- A fold whose step only appends to the closed history only appends to
the closed history. -/
theorem foldl_closed_extends (f : LedgerState → OpenPos → LedgerState)
    (hf : ∀ acc p, ∃ tail, (f acc p).closedPositions = acc.closedPositions ++ tail)
    (l : List OpenPos) (st : LedgerState) :
    ∃ tail, (l.foldl f st).closedPositions = st.closedPositions ++ tail := by
  induction l generalizing st with
  | nil => exact ⟨[], by simp⟩
  | cons p rest ih =>
      obtain ⟨t1, h1⟩ := hf st p
      obtain ⟨t2, h2⟩ := ih (f st p)
      exact ⟨t1 ++ t2, by simp [List.foldl, h2, h1]⟩

/-- C9 (amended): every ledger operation other than the daily statistics
reset preserves the existing closed-position history as a prefix — records
are only appended (`addClosedPosition` / `handlePositionClosed` append
exactly one; a reconciliation tick appends one per closed position), never
modified or removed — while `resetDailyStatistics` clears the whole
history. -/
theorem closedHistory_append_only (op : LedgerOp) (st : LedgerState)
    (hop : op ≠ LedgerOp.resetDaily) :
    (∃ tail, (applyOp op st).closedPositions = st.closedPositions ++ tail) ∧
    (applyOp LedgerOp.resetDaily st).closedPositions = [] := by
  refine ⟨?_, rfl⟩
  cases op with
  | addOpen positionData now => exact ⟨[], by simp [applyOp, addOpenPosition]⟩
  | removeOpen symbol => exact ⟨[], by simp [applyOp, removeOpenPosition]⟩
  | addClosed positionData now => exact ⟨[⟨positionData, now⟩], rfl⟩
  | handleClosed symbol trackedPosition trades now =>
      obtain ⟨c, hc⟩ := handlePositionClosed_closed_append st symbol trackedPosition trades now
      exact ⟨[c], hc⟩
  | reconcile exchangePositions tradesFor now =>
      refine foldl_closed_extends _ ?_ st.openPositions st
      intro acc trackedPosition
      cases hfind : exchangePositions.find? (fun p => p.symbol == trackedPosition.symbol) with
      | none =>
          obtain ⟨c, hc⟩ := handlePositionClosed_closed_append acc trackedPosition.symbol
            trackedPosition (tradesFor trackedPosition.symbol) now
          exact ⟨[c], by simpa [hfind] using hc⟩
      | some p =>
          by_cases hsz : p.size = 0
          · obtain ⟨c, hc⟩ := handlePositionClosed_closed_append acc trackedPosition.symbol
              trackedPosition (tradesFor trackedPosition.symbol) now
            exact ⟨[c], by simpa [hfind, hsz] using hc⟩
          · exact ⟨[], by simp [hfind, hsz]⟩
  | resetDaily => exact absurd rfl hop

/-- C9 witness: appending one closed record via `addClosedPosition` on a
concrete ledger with one history entry. -/
theorem closedHistory_append_only_witness :
    LedgerOp.addClosed adaClosed.data 9000 ≠ LedgerOp.resetDaily ∧
    ((∃ tail,
        (applyOp (LedgerOp.addClosed adaClosed.data 9000) oneClosedLedger).closedPositions =
          oneClosedLedger.closedPositions ++ tail) ∧
      (applyOp LedgerOp.resetDaily oneClosedLedger).closedPositions = []) :=
  ⟨fun h => LedgerOp.noConfusion h,
    closedHistory_append_only (LedgerOp.addClosed adaClosed.data 9000) oneClosedLedger
      (fun h => LedgerOp.noConfusion h)⟩

/-- C9 counterexample: on a ledger whose history holds one record, the
daily reset leaves an empty history — it neither leaves the list
unchanged nor appends a record, contradicting the claim that every
ledger operation does one of the two. -/
theorem closedHistory_reset_counterexample :
    (applyOp LedgerOp.resetDaily oneClosedLedger).closedPositions = [] ∧
    ¬ ((applyOp LedgerOp.resetDaily oneClosedLedger).closedPositions =
          oneClosedLedger.closedPositions ∨
        ∃ c, (applyOp LedgerOp.resetDaily oneClosedLedger).closedPositions =
          oneClosedLedger.closedPositions ++ [c]) := by
  refine ⟨rfl, ?_⟩
  rintro (h | ⟨c, h⟩) <;>
    simp [applyOp, resetDailyStatistics, oneClosedLedger] at h

/-- C4: when the exchange reports the tracked symbol absent or with size
zero, a reconciliation tick closes the tracked position: the exit price is
the most recent trade on the side opposite the direction (Sell for LONG,
Buy for SHORT), falling back to the entry price when no such trade
exists; the realized PnL is `(exit − entry) × qty` for LONG and
`(entry − exit) × qty` for SHORT; the record is appended to the closed
history, the open set entry is removed, and `totalTrades` rises by
exactly one. -/
theorem reconciliation_closes_position (st : LedgerState) (trackedPosition : OpenPos)
    (trades : List Trade) (exchangePositions : List ExchangePos) (now : ℕ)
    (hopen : st.openPositions = [trackedPosition])
    (hentry : 0 < trackedPosition.entryPrice)
    (hqty : 0 < trackedPosition.quantity)
    (htrades : ∀ t ∈ trades, 0 < t.execPrice)
    (hgone : ∀ p, exchangePositions.find? (fun q => q.symbol == trackedPosition.symbol) =
      some p → p.size = 0) :
    ∃ c : ClosedPos,
      checkPositions st exchangePositions (fun _ => trades) now =
        { openPositions := [], closedPositions := st.closedPositions ++ [c] } ∧
      c.data.base = trackedPosition ∧
      c.data.exitPrice =
        (match trades.find? (isCloseTrade trackedPosition.symbol trackedPosition.direction) with
         | some t => t.execPrice
         | none => trackedPosition.entryPrice) ∧
      c.data.pnl =
        (match trackedPosition.direction with
         | .LONG => (c.data.exitPrice - trackedPosition.entryPrice) * trackedPosition.quantity
         | .SHORT => (trackedPosition.entryPrice - c.data.exitPrice) *
            trackedPosition.quantity) ∧
      (getStatistics (checkPositions st exchangePositions (fun _ => trades) now)).totalTrades =
        (getStatistics st).totalTrades + 1 := by
  have hstep : checkPositions st exchangePositions (fun _ => trades) now =
      handlePositionClosed st trackedPosition.symbol trackedPosition trades now := by
    unfold checkPositions
    rw [hopen]
    cases hfind : exchangePositions.find? (fun q => q.symbol == trackedPosition.symbol) with
    | none => simp [hfind]
    | some p => simp [hfind, hgone p hfind]
  set exitVal : ℚ :=
    (match trades.find? (isCloseTrade trackedPosition.symbol trackedPosition.direction) with
     | some t => t.execPrice
     | none => trackedPosition.entryPrice) with hexitdef
  have hexitpos : 0 < exitVal := by
    rw [hexitdef]
    cases hfind : trades.find? (isCloseTrade trackedPosition.symbol
        trackedPosition.direction) with
    | none => exact hentry
    | some t => exact htrades t (List.mem_of_find?_eq_some hfind)
  have hpnl : calculatePnL trackedPosition.entryPrice exitVal trackedPosition.quantity
      trackedPosition.direction =
      (match trackedPosition.direction with
       | .LONG => (exitVal - trackedPosition.entryPrice) * trackedPosition.quantity
       | .SHORT => (trackedPosition.entryPrice - exitVal) * trackedPosition.quantity) := by
    unfold calculatePnL
    rw [if_neg (not_not.2 ⟨by simpa [isValidNumber] using hentry,
      by simpa [isValidNumber] using hexitpos, by simpa [isValidNumber] using hqty⟩)]
  have hhandle : handlePositionClosed st trackedPosition.symbol trackedPosition trades now =
      { openPositions := delPos st.openPositions trackedPosition.symbol,
        closedPositions := st.closedPositions ++
          [⟨⟨trackedPosition, exitVal,
             calculatePnL trackedPosition.entryPrice exitVal trackedPosition.quantity
               trackedPosition.direction,
             calculatePnLPercent trackedPosition.entryPrice exitVal trackedPosition.direction,
             (now - trackedPosition.timestamp) / 1000⟩, now⟩] } := by
    rw [hexitdef]
    rfl
  have hdel : delPos st.openPositions trackedPosition.symbol = [] := by
    rw [hopen]
    simp [delPos, List.eraseP_cons_of_pos]
  refine ⟨⟨⟨trackedPosition, exitVal,
      calculatePnL trackedPosition.entryPrice exitVal trackedPosition.quantity
        trackedPosition.direction,
      calculatePnLPercent trackedPosition.entryPrice exitVal trackedPosition.direction,
      (now - trackedPosition.timestamp) / 1000⟩, now⟩, ?_, rfl, rfl, hpnl, ?_⟩
  · rw [hstep, hhandle, hdel]
  · rw [hstep, hhandle]
    simp [getStatistics]

/-- C4 witness: a concrete reconciliation tick — one tracked ADAUSDT LONG
position, empty live-position list, one matching Sell execution at
100.5. -/
theorem reconciliation_closes_position_witness :
    (oneOpenLedger.openPositions = [adaTracked] ∧ (0:ℚ) < adaTracked.entryPrice ∧
      (0:ℚ) < adaTracked.quantity) ∧
    ∃ c : ClosedPos,
      checkPositions oneOpenLedger [] (fun _ => [adaSellTrade]) 9000 =
        { openPositions := [],
          closedPositions := oneOpenLedger.closedPositions ++ [c] } ∧
      c.data.base = adaTracked ∧
      c.data.exitPrice =
        (match [adaSellTrade].find? (isCloseTrade adaTracked.symbol adaTracked.direction) with
         | some t => t.execPrice
         | none => adaTracked.entryPrice) ∧
      c.data.pnl =
        (match adaTracked.direction with
         | .LONG => (c.data.exitPrice - adaTracked.entryPrice) * adaTracked.quantity
         | .SHORT => (adaTracked.entryPrice - c.data.exitPrice) * adaTracked.quantity) ∧
      (getStatistics
          (checkPositions oneOpenLedger [] (fun _ => [adaSellTrade]) 9000)).totalTrades =
        (getStatistics oneOpenLedger).totalTrades + 1 :=
  ⟨⟨rfl, by norm_num [adaTracked], by norm_num [adaTracked]⟩,
    reconciliation_closes_position oneOpenLedger adaTracked [adaSellTrade] [] 9000 rfl
      (by norm_num [adaTracked]) (by norm_num [adaTracked])
      (by intro t ht; rw [List.mem_singleton] at ht; subst ht; norm_num [adaSellTrade])
      (by intro p hp; simp at hp)⟩

/-- C7: the `leverage not modified` / `110043` response is treated as
success, so a second `setLeverage` call at an already-applied value
succeeds (both calls of a repeated pair succeed against the gateway
contract); any other non-zero response is an error, and a leverage error
aborts `openPosition` before any order is placed (the ledger is unchanged
and the only exchange call issued is the leverage request). -/
theorem setLeverage_idempotent :
    (∀ resp : ApiResponse,
        resp.retMsg = "leverage not modified" ∨ resp.retCode = 110043 →
        setLeverageOutcome resp = .ok ()) ∧
    (∀ (current : Option ℚ) (requested : ℚ),
        setLeverageOutcome (exchangeSetLeverage current requested).1 = .ok () ∧
        setLeverageOutcome
          (exchangeSetLeverage (exchangeSetLeverage current requested).2 requested).1 =
            .ok ()) ∧
    (∀ resp : ApiResponse,
        resp.retMsg ≠ "leverage not modified" → resp.retCode ≠ 110043 →
        resp.retCode ≠ 0 → ∃ e, setLeverageOutcome resp = .error e) ∧
    (∀ (signal : Signal) (direction : Direction) (positionParams : PositionParams)
        (timestamp : ℕ) (responses : LegResponses) (st : LedgerState) (now : ℕ)
        (dryRunTag : String) (e : String),
        setLeverageOutcome responses.leverageResp = .error e →
        openPositionLegs false signal direction positionParams timestamp responses st now
          dryRunTag = (.error e, st, [.setLeverage])) := by
  refine ⟨?_, ?_, ?_, ?_⟩
  · intro resp h
    unfold setLeverageOutcome
    rw [if_pos h]
  · intro current requested
    unfold exchangeSetLeverage setLeverageOutcome
    by_cases h : current = some requested <;> simp [h]
  · intro resp hmsg hcode hzero
    refine ⟨"Failed to set leverage: " ++ resp.retMsg, ?_⟩
    unfold setLeverageOutcome
    rw [if_neg (by tauto), if_pos hzero]
  · intro signal direction positionParams timestamp responses st now dryRunTag e herr
    unfold openPositionLegs
    rw [if_neg (by simp), herr]

/-- C7 witness: a concrete repeated `setLeverage` at 20x, and a concrete
failing response aborting before the entry order. -/
theorem setLeverage_idempotent_witness :
    (setLeverageOutcome (exchangeSetLeverage (some 20) 20).1 = .ok () ∧
      setLeverageOutcome
        (exchangeSetLeverage (exchangeSetLeverage (some 20) 20).2 20).1 = .ok ()) ∧
    (setLeverageOutcome failResp = .error "Failed to set leverage: boom" ∧
      openPositionLegs false adaSignal .LONG adaParams 5
        { leverageResp := failResp, entryResp := okEntryResp, tpResp := okPlainResp,
          slResp := okPlainResp } LedgerState.empty 7 "T" =
        (.error "Failed to set leverage: boom", LedgerState.empty, [.setLeverage])) :=
  ⟨setLeverage_idempotent.2.1 (some 20) 20,
    by
      have h1 : setLeverageOutcome failResp = .error "Failed to set leverage: boom" := by
        unfold setLeverageOutcome failResp
        rw [if_neg (by simp), if_pos (by simp)]
        rfl
      exact ⟨h1, setLeverage_idempotent.2.2.2 adaSignal .LONG adaParams 5 _ LedgerState.empty
        7 "T" _ h1⟩⟩

/-- C1 (amended): in live mode, when the leverage step and the market
entry succeed but take-profit or stop-loss placement fails, `openPosition`
inserts ZERO OpenPosition records — the ledger is returned unchanged and
the underlying error propagates to the caller (it is not silently
swallowed, but neither is a record carrying the entry order id stored,
and the error is the plain underlying exchange error, not a distinguished
partial-protection error); a record carrying the entry order id is
inserted (exactly one per symbol, by the ledger's keyed insert) only when
all four legs succeed. -/
theorem openPosition_partial_failure_no_insert (signal : Signal) (direction : Direction)
    (positionParams : PositionParams) (timestamp : ℕ) (responses : LegResponses)
    (st : LedgerState) (now : ℕ) (dryRunTag : String) (entryOrderId : String)
    (hlev : setLeverageOutcome responses.leverageResp = .ok ())
    (hentry : openMarketOrderOutcome responses.entryResp = .ok entryOrderId) :
    (((∃ e, setTakeProfitOutcome responses.tpResp = .error e) ∨
        (∃ e, setStopLossOutcome responses.slResp = .error e)) →
      (openPositionLegs false signal direction positionParams timestamp responses st now
          dryRunTag).2.1 = st ∧
      ∃ e, (openPositionLegs false signal direction positionParams timestamp responses st now
          dryRunTag).1 = .error e) ∧
    (∀ tpOrderId slOrderId,
        setTakeProfitOutcome responses.tpResp = .ok tpOrderId →
        setStopLossOutcome responses.slResp = .ok slOrderId →
        openPositionLegs false signal direction positionParams timestamp responses st now
            dryRunTag =
          (.ok (),
           addOpenPosition st
             { symbol := signal.symbol, direction := direction,
               entryPrice := positionParams.entryPrice,
               quantity := positionParams.quantity,
               takeProfit := positionParams.takeProfit,
               stopLoss := positionParams.stopLoss,
               orderId := entryOrderId, timestamp := timestamp,
               tpOrderId := tpOrderId, slOrderId := slOrderId } now,
           [.setLeverage, .marketOrder, .setTP, .setSL])) := by
  constructor
  · rintro (⟨e, he⟩ | ⟨e, he⟩)
    · simp [openPositionLegs, hlev, hentry, he]
    · cases htp : setTakeProfitOutcome responses.tpResp with
      | error e2 => simp [openPositionLegs, hlev, hentry, htp]
      | ok tpOrderId => simp [openPositionLegs, hlev, hentry, htp, he]
  · intro tpOrderId slOrderId htp hsl
    simp [openPositionLegs, hlev, hentry, htp, hsl]

/-- C1 witness: leverage and entry succeed, take-profit placement fails —
the ledger is unchanged and an error is returned. -/
theorem openPosition_partial_failure_no_insert_witness :
    (setLeverageOutcome tpFailLegs.leverageResp = .ok () ∧
      openMarketOrderOutcome tpFailLegs.entryResp = .ok "E1" ∧
      (∃ e, setTakeProfitOutcome tpFailLegs.tpResp = .error e)) ∧
    ((openPositionLegs false adaSignal .LONG adaParams 5 tpFailLegs
        LedgerState.empty 7 "T").2.1 = LedgerState.empty ∧
      ∃ e, (openPositionLegs false adaSignal .LONG adaParams 5 tpFailLegs
        LedgerState.empty 7 "T").1 = .error e) := by
  have hlev : setLeverageOutcome tpFailLegs.leverageResp = .ok () := by
    simp [setLeverageOutcome, tpFailLegs, okPlainResp]
  have hentry : openMarketOrderOutcome tpFailLegs.entryResp = .ok "E1" := by
    simp [openMarketOrderOutcome, tpFailLegs, okEntryResp]
  have htp : ∃ e, setTakeProfitOutcome tpFailLegs.tpResp = .error e :=
    ⟨"Failed to set Take Profit: " ++ "boom",
      by simp [setTakeProfitOutcome, tpFailLegs, failResp]⟩
  exact ⟨⟨hlev, hentry, htp⟩,
    (openPosition_partial_failure_no_insert adaSignal .LONG adaParams 5 tpFailLegs
      LedgerState.empty 7 "T" "E1" hlev hentry).1 (Or.inl htp)⟩

/-- C1 counterexample: with the leverage and entry legs succeeding and
take-profit placement failing, the resulting ledger holds NO open
position for the symbol (zero records, not the claimed exactly one), the
propagated error is the plain underlying exchange error, and the trace
shows the entry order was placed (the position is live on the exchange
while untracked). -/
theorem openPosition_partialProtection_counterexample :
    (openPositionLegs false adaSignal .LONG adaParams 5 tpFailLegs
        LedgerState.empty 7 "T").2.1.openPositions.countP
      (fun p => p.symbol == adaSignal.symbol) = 0 ∧
    (openPositionLegs false adaSignal .LONG adaParams 5 tpFailLegs
        LedgerState.empty 7 "T").1 = .error ("Failed to set Take Profit: " ++ "boom") ∧
    (openPositionLegs false adaSignal .LONG adaParams 5 tpFailLegs
        LedgerState.empty 7 "T").2.2 = [.setLeverage, .marketOrder, .setTP] := by
  refine ⟨?_, ?_, ?_⟩ <;>
    simp [openPositionLegs, setLeverageOutcome, openMarketOrderOutcome,
      setTakeProfitOutcome, tpFailLegs, okPlainResp, okEntryResp, failResp,
      LedgerState.empty]

/-- The stop distance is positive whenever the entry price is positive and
the configured stop-loss percentage is non-zero. -/
theorem stopLossDistance_pos (cfg : RiskConfig) (entryPrice : ℚ) (direction : Direction)
    (he : 0 < entryPrice) (hs : cfg.stopLossPercent ≠ 0) :
    0 < stopLossDistanceOf cfg entryPrice direction := by
  unfold stopLossDistanceOf stopLossPriceOf
  cases direction with
  | LONG =>
      rw [show entryPrice - entryPrice * (1 - cfg.stopLossPercent / 100) =
        entryPrice * (cfg.stopLossPercent / 100) by ring, abs_pos]
      exact mul_ne_zero (ne_of_gt he) (div_ne_zero hs (by norm_num))
  | SHORT =>
      rw [show entryPrice - entryPrice * (1 + cfg.stopLossPercent / 100) =
        -(entryPrice * (cfg.stopLossPercent / 100)) by ring, abs_neg, abs_pos]
      exact mul_ne_zero (ne_of_gt he) (div_ne_zero hs (by norm_num))

/-- C2 (amended): for every valid input (balance > 0, entry > 0,
direction LONG/SHORT, stop-loss percent non-zero) and constraints with
`minQty ≤ maxQty`, a successful `calculatePositionParameters` returns a
quantity within `[minQty, maxQty]` with `requiredMargin ≤ balance`, and
the quantity is an exact multiple of the tick size whenever no min/max
clamp fires; any failure on such inputs is `InsufficientBalance`.  (The
original claim's unconditional tick-multiple property fails: the clamps
assign `minQty`/`maxQty` verbatim, which need not sit on the tick
grid.) -/
theorem calculateParameters_bounds (cfg : RiskConfig) (balance entryPrice : ℚ)
    (direction : Direction) (symbolInfo : SymbolInfo)
    (hb : 0 < balance) (he : 0 < entryPrice) (hs : cfg.stopLossPercent ≠ 0)
    (hminmax : symbolInfo.minQty ≤ symbolInfo.maxQty) :
    (∀ positionParams,
        calculatePositionParameters cfg balance entryPrice direction symbolInfo =
          .ok positionParams →
        symbolInfo.minQty ≤ positionParams.quantity ∧
        positionParams.quantity ≤ symbolInfo.maxQty ∧
        positionParams.requiredMargin ≤ balance ∧
        (symbolInfo.minQty ≤ roundQuantity (rawQuantityOf cfg balance entryPrice direction)
            symbolInfo.tickPrec ∧
          roundQuantity (rawQuantityOf cfg balance entryPrice direction)
            symbolInfo.tickPrec ≤ symbolInfo.maxQty →
          ∃ k : ℤ, positionParams.quantity = (k : ℚ) / 10 ^ symbolInfo.tickPrec)) ∧
    (∀ err,
        calculatePositionParameters cfg balance entryPrice direction symbolInfo =
          .error err → err = RiskError.insufficientBalance) := by
  have hdist := stopLossDistance_pos cfg entryPrice direction he hs
  constructor
  · intro positionParams hok
    simp only [calculatePositionParameters] at hok
    rw [if_neg (not_le.2 hb), if_neg (not_le.2 he), if_neg (not_le.2 hdist)] at hok
    split_ifs at hok with h4 h5 h6 h7 h8 h9
    all_goals
      first
      | exact Except.noConfusion hok
      | (rw [Except.ok.injEq] at hok
         subst hok
         refine ⟨?_, ?_, ?_, ?_⟩ <;>
           (try intro hgrid) <;>
           first
             | linarith
             | exact roundToDecimal_mem_grid _ _
             | (exact absurd hgrid.1 (by linarith))
             | (exact absurd hgrid.2 (by linarith))
             | (exact absurd hgrid.1 (not_le.2 (by linarith)))
             | (exact absurd hgrid.2 (not_le.2 (by linarith))))
  · intro err herr
    simp only [calculatePositionParameters] at herr
    rw [if_neg (not_le.2 hb), if_neg (not_le.2 he), if_neg (not_le.2 hdist)] at herr
    split_ifs at herr with h4 h5 h6
    all_goals
      first
      | exact Except.noConfusion herr
      | (rw [Except.error.injEq] at herr; exact herr.symm)

/-- C2 witness: a concrete valid input with unconstraining instrument
limits, run through the amended bounds theorem. -/
theorem calculateParameters_bounds_witness :
    ((0:ℚ) < 1000 ∧ (0:ℚ) < 100 ∧ defaultRiskConfig.stopLossPercent ≠ 0 ∧
      wideSymbolInfo.minQty ≤ wideSymbolInfo.maxQty) ∧
    ((∀ positionParams,
        calculatePositionParameters defaultRiskConfig 1000 100 .LONG wideSymbolInfo =
          .ok positionParams →
        wideSymbolInfo.minQty ≤ positionParams.quantity ∧
        positionParams.quantity ≤ wideSymbolInfo.maxQty ∧
        positionParams.requiredMargin ≤ 1000 ∧
        (wideSymbolInfo.minQty ≤ roundQuantity (rawQuantityOf defaultRiskConfig 1000 100 .LONG)
            wideSymbolInfo.tickPrec ∧
          roundQuantity (rawQuantityOf defaultRiskConfig 1000 100 .LONG)
            wideSymbolInfo.tickPrec ≤ wideSymbolInfo.maxQty →
          ∃ k : ℤ, positionParams.quantity = (k : ℚ) / 10 ^ wideSymbolInfo.tickPrec)) ∧
      (∀ err,
        calculatePositionParameters defaultRiskConfig 1000 100 .LONG wideSymbolInfo =
          .error err → err = RiskError.insufficientBalance)) :=
  ⟨⟨by norm_num, by norm_num, by norm_num [defaultRiskConfig], by norm_num [wideSymbolInfo]⟩,
    calculateParameters_bounds defaultRiskConfig 1000 100 .LONG wideSymbolInfo
      (by norm_num) (by norm_num) (by norm_num [defaultRiskConfig])
      (by norm_num [wideSymbolInfo])⟩

/-- C2 counterexample: with tick size `0.01` (precision 2) and
`minQty = 100.005` the computation succeeds — the rounded quantity 83.33
is below the minimum, so the minimum is assigned verbatim — and the
returned quantity `100.005` lies inside `[minQty, maxQty]` but is NOT a
multiple of the tick size, refuting the claim's tick-multiple property. -/
theorem quantity_tick_multiple_counterexample :
    calculatePositionParameters defaultRiskConfig 1000 100 .LONG fractionalMinQtyInfo =
      .ok { entryPrice := 100, quantity := 20001/200, positionSize := 20001/2,
            leverage := 20, requiredMargin := 20001/40, stopLoss := 99.7,
            takeProfit := 100.5, riskAmount := 25, direction := .LONG } ∧
    fractionalMinQtyInfo.minQty ≤ (20001/200 : ℚ) ∧
    (20001/200 : ℚ) ≤ fractionalMinQtyInfo.maxQty ∧
    ¬ ∃ k : ℤ, (20001/200 : ℚ) = (k : ℚ) / 10 ^ fractionalMinQtyInfo.tickPrec := by
  have hq1 : roundQuantity (rawQuantityOf defaultRiskConfig 1000 100 .LONG) 2 =
      8333/100 := by
    unfold roundQuantity
    rw [scenario_rawQuantity, scenario_quantity_rounded]
    norm_num
  have hr100 : roundPrice (100:ℚ) 4 = 100 := by
    rw [show (100:ℚ) = ((1000000:ℤ):ℚ)/10^(4:ℕ) by norm_num]
    exact roundPrice_fixed 1000000 4
  have hr997 : roundPrice (99.7:ℚ) 4 = 99.7 := by
    rw [show (99.7:ℚ) = ((997000:ℤ):ℚ)/10^(4:ℕ) by norm_num]
    exact roundPrice_fixed 997000 4
  have hr1005 : roundPrice (100.5:ℚ) 4 = 100.5 := by
    rw [show (100.5:ℚ) = ((1005000:ℤ):ℚ)/10^(4:ℕ) by norm_num]
    exact roundPrice_fixed 1005000 4
  refine ⟨?_, by norm_num [fractionalMinQtyInfo], by norm_num [fractionalMinQtyInfo], ?_⟩
  · simp only [calculatePositionParameters, fractionalMinQtyInfo]
    rw [if_neg (by norm_num : ¬ (1000:ℚ) ≤ 0), if_neg (by norm_num : ¬ (100:ℚ) ≤ 0),
      if_neg (by rw [scenario_stopLossDistance]; norm_num :
        ¬ stopLossDistanceOf defaultRiskConfig 100 .LONG ≤ 0)]
    rw [hq1]
    simp only [eq_true (by norm_num : (8333:ℚ)/100 < 20001/200), if_true]
    simp only [eq_false (by norm_num : ¬ ((20001:ℚ)/200 > 1000)), if_false]
    simp only [eq_false (by norm_num [defaultRiskConfig] :
      ¬ ((20001:ℚ)/200 * 100 / defaultRiskConfig.leverage > 1000)), if_false]
    rw [hr100, scenario_stopLossPrice, hr997, scenario_takeProfitPrice, hr1005,
      scenario_riskAmount]
    simp only [Except.ok.injEq, PositionParams.mk.injEq]
    norm_num [defaultRiskConfig]
  · simp only [fractionalMinQtyInfo]
    rintro ⟨k, hk⟩
    have h2 : (k:ℚ) = 20001/2 := by
      field_simp at hk
      linarith
    have h3 : (2*k : ℤ) = 20001 := by
      exact_mod_cast (by linarith : (2:ℚ)*(k:ℚ) = 20001)
    omega

end TradingBot
